import Mathlib

/-!
Verification development for the e-commerce API gateway (Go, `pkg/grpc/client.go`
plus the order-creation coordinator described by the design document).

The Go code is shallowly embedded: errors become an explicit `GoErr` inductive
(`nil` errors are `Option.none`), gRPC status codes become `GrpcCode`, channel
state strings stay strings (the source compares `GetState().String()` against
string literals), and each Go function becomes a Lean function of the same name.
Floating-point price fields (`Price`, `UnitPrice`, `TotalPrice`, `TotalAmount`)
are omitted from the embedded records: no verified property concerns them.
-/

namespace Gateway

/-- gRPC status codes (`google.golang.org/grpc/codes`). -/
inductive GrpcCode where
  | ok
  | canceled
  | unknown
  | invalidArgument
  | deadlineExceeded
  | notFound
  | alreadyExists
  | permissionDenied
  | resourceExhausted
  | failedPrecondition
  | aborted
  | outOfRange
  | unimplemented
  | internal
  | unavailable
  | dataLoss
  | unauthenticated
deriving DecidableEq, Repr

/-- The application error taxonomy actually declared in `client.go`:
`ErrNotFound`, `ErrUnauthorized`, `ErrInternal` (sentinel `errors.New` values). -/
inductive AppErrKind where
  | notFound
  | unauthorized
  | internal
deriving DecidableEq, Repr

/-- A non-nil Go `error` value as observed by this package: one of the
package-level sentinel errors, a gRPC status error (carrying a code and a
message), or any other error value (for which `status.FromError` reports
`ok = false`). A nil Go error is modelled as `Option.none` at use sites. -/
inductive GoErr where
  | appErr (k : AppErrKind)
  | statusErr (code : GrpcCode) (msg : String)
  | otherErr (msg : String)
deriving DecidableEq, Repr

/-- `ErrNotFound = errors.New("resource not found")`. -/
def ErrNotFound : GoErr := .appErr .notFound

/-- `ErrUnauthorized = errors.New("unauthorized")`. -/
def ErrUnauthorized : GoErr := .appErr .unauthorized

/-- `ErrInternal = errors.New("internal error")`. -/
def ErrInternal : GoErr := .appErr .internal

/-- `status.FromError`: returns `some code` exactly when the error is a gRPC
status error (`ok = true` in Go); for sentinel and other plain errors it
reports `ok = false`, modelled as `none`. -/
def statusFromError : GoErr → Option GrpcCode
  | .statusErr c _ => some c
  | _ => none

/-- The translation applied by `handleGRPCError` to a non-nil error:
if `status.FromError` fails the raw error is returned unchanged; otherwise the
code is switched on, with `NotFound ↦ ErrNotFound`,
`PermissionDenied, Unauthenticated ↦ ErrUnauthorized`, default `ErrInternal`. -/
def translateGoErr (e : GoErr) : GoErr :=
  match statusFromError e with
  | none => e
  | some c =>
    match c with
    | .notFound => ErrNotFound
    | .permissionDenied => ErrUnauthorized
    | .unauthenticated => ErrUnauthorized
    | _ => ErrInternal

/-- `handleGRPCError` from `client.go`: nil maps to nil, otherwise the error is
translated by `translateGoErr`. -/
def handleGRPCError : Option GoErr → Option GoErr
  | none => none
  | some e => some (translateGoErr e)

/-- One gRPC client connection handle. `state` is the label returned by
`conn.GetState().String()`; `closed` records that `Close()` has been called. -/
structure ClientConn where
  state : String
  closed : Bool
deriving DecidableEq, Repr

/-- `Clients` from `client.go`: one connection per backend service. A `none`
entry models a nil connection handle (e.g. after a partial startup failure). -/
structure Clients where
  userConn : Option ClientConn
  listingConn : Option ClientConn
  inventoryConn : Option ClientConn
deriving DecidableEq, Repr

/-- `(*grpc.ClientConn).Close()`: the channel is released; its state becomes
`SHUTDOWN` and it is marked closed. -/
def connClose (c : ClientConn) : ClientConn :=
  { c with state := "SHUTDOWN", closed := true }

/-- `(*Clients).Close()` from `client.go`: closes each of the three
connections, skipping nil handles. -/
def Clients.Close (c : Clients) : Clients :=
  { userConn := c.userConn.map connClose
    listingConn := c.listingConn.map connClose
    inventoryConn := c.inventoryConn.map connClose }

/-- The `isHealthy` closure inside `HealthCheck`: nil connections are
unhealthy; otherwise healthy iff the state label is `"READY"` or `"IDLE"`. -/
def isHealthy : Option ClientConn → Bool
  | none => false
  | some conn => conn.state == "READY" || conn.state == "IDLE"

/-- `(*Clients).HealthCheck` from `client.go`: the per-service health map. -/
def Clients.HealthCheck (c : Clients) : List (String × Bool) :=
  [("user-service", isHealthy c.userConn),
   ("listing-service", isHealthy c.listingConn),
   ("inventory-service", isHealthy c.inventoryConn)]

/-- `models.Product` (price field omitted, see file header). -/
structure Product where
  id : String
  name : String
  description : String
  category : String
  available : Bool
deriving DecidableEq, Repr

/-- `(*Clients).GetProduct` from `client.go`: the id `"not-found"` yields
`(nil, ErrNotFound)`; any other id yields a sample product carrying that id
and a nil error. Returned as the Go pair `(*Product, error)`. -/
def GetProduct (id : String) : Option Product × Option GoErr :=
  if id == "not-found" then
    (none, some ErrNotFound)
  else
    (some { id := id
            name := "Sample Product"
            description := "A sample product for testing"
            category := "electronics"
            available := true }, none)

/-- `(*Clients).ReserveInventory` from `client.go`: always succeeds, returning
the token `"reservation-" ++ productID` and a nil error. -/
def ReserveInventory (productID : String) (quantity : Int) : String × Option GoErr :=
  ("reservation-" ++ productID, none)

/-- `(*Clients).CancelReservation` from `client.go`: always succeeds. -/
def CancelReservation (reservationID : String) : Option GoErr :=
  none

/-- One line item of `models.CreateOrderRequest`. -/
structure OrderItemReq where
  productID : String
  quantity : Int
deriving DecidableEq, Repr

/-- `models.CreateOrderRequest`: the caller-supplied order draft. -/
structure CreateOrderRequest where
  items : List OrderItemReq
  shippingAddr : String
deriving DecidableEq, Repr

/-- `models.OrderItem` (unit/total price fields omitted, see file header). -/
structure OrderItem where
  productID : String
  quantity : Int
deriving DecidableEq, Repr

/-- `models.Order` (total-amount field omitted, see file header). -/
structure Order where
  id : String
  userID : String
  items : List OrderItem
  status : String
  shippingAddr : String
  reservationIDs : List String
deriving DecidableEq, Repr

/-- `(*Clients).CreateOrder` from `client.go` (lines 261-285): builds the
order items from the draft and returns an order whose `ReservationIDs` field
is exactly the `reservationIDs` argument. -/
def CreateOrder (userID : String) (req : CreateOrderRequest)
    (reservationIDs : List String) : Order :=
  { id := "order-new"
    userID := userID
    items := req.items.map (fun i => { productID := i.productID, quantity := i.quantity })
    status := "pending"
    shippingAddr := req.shippingAddr
    reservationIDs := reservationIDs }

/-- One remote call issued by the order-creation coordinator, recorded for the
call trace: an inventory reservation, a reservation cancellation, or the single
order-create call. -/
inductive Call where
  | reserve (productID : String) (quantity : Int)
  | cancel (token : String)
  | orderCreate (tokens : List String)
deriving DecidableEq, Repr

/-- The reserve call recorded for one line item. -/
def reserveCall (i : OrderItemReq) : Call :=
  .reserve i.productID i.quantity

/-- The environment of remote outcomes the coordinator runs against:
what each reservation call returns (a token or a failure), what each
cancellation call returns, and whether the order-create call fails. -/
structure SagaEnv where
  reserveRes : OrderItemReq → Except GoErr String
  cancelRes : String → Option GoErr
  orderCreateRes : List String → Option GoErr

/-- The token an environment yields for a line item whose reservation
succeeds (used only to state lemmas; defaults to `""` on failure). -/
def resToken (env : SagaEnv) (i : OrderItemReq) : String :=
  match env.reserveRes i with
  | .ok t => t
  | .error _ => ""

/-- Modelled from the spec: the reservation-collection phase of the Order
Creation Coordinator (§4.4 step 1) — the coordinator itself lives in
`internal/handlers/order.go`, which is not among the provided sources.
Line items are reserved strictly in list order; each successful token is
appended to the compensation ledger; on the first failure iteration stops
immediately. Returns the trace of reserve calls, the ledger, and the
triggering failure if any. -/
def collectPhase (env : SagaEnv) : List OrderItemReq → List Call × List String × Option GoErr
  | [] => ([], [], none)
  | item :: rest =>
    match env.reserveRes item with
    | .ok tok =>
      let (calls, toks, err) := collectPhase env rest
      (reserveCall item :: calls, tok :: toks, err)
    | .error e => ([reserveCall item], [], some e)

/-- Modelled from the spec: the COMPENSATING phase (§4.4 step 3) — the
coordinator lives in `internal/handlers/order.go`, not among the provided
sources. Every ledger token receives exactly one cancellation call, in
acquisition order; cancellation failures are reported but do not abort the
loop or change the saga outcome. -/
def compensate (tokens : List String) : List Call :=
  tokens.map Call.cancel

/-- Modelled from the spec: the Order Creation Coordinator `CreateOrder`
(§4.4) — it lives in `internal/handlers/order.go`, not among the provided
sources. Reservations are collected in input order; on a reservation failure
the acquired prefix is compensated and the translated triggering failure is
returned, with no order-create call; if all reservations succeed the order is
created through the Order facade (`CreateOrder` of `client.go`) with the
ledger as its reservation tokens; if order-create fails the whole ledger is
compensated and the translated order-create failure is returned. Returns the
full remote-call trace together with the saga result. -/
def createOrderSaga (env : SagaEnv) (userID : String) (req : CreateOrderRequest) :
    List Call × Except GoErr Order :=
  match collectPhase env req.items with
  | (calls, toks, some e) =>
    (calls ++ compensate toks, .error (translateGoErr e))
  | (calls, toks, none) =>
    match env.orderCreateRes toks with
    | some e =>
      (calls ++ [Call.orderCreate toks] ++ compensate toks, .error (translateGoErr e))
    | none =>
      (calls ++ [Call.orderCreate toks], .ok (CreateOrder userID req toks))

/-- Whether a recorded call is a cancellation. -/
def Call.isCancel : Call → Bool
  | .cancel _ => true
  | _ => false

/-- Whether a recorded call is a reservation attempt. -/
def Call.isReserve : Call → Bool
  | .reserve _ _ => true
  | _ => false

/-- Whether a recorded call is the order-create call. -/
def Call.isOrderCreate : Call → Bool
  | .orderCreate _ => true
  | _ => false

/-- Concrete draft for the spec scenario: items `[(P1, qty 2), (P2, qty 1)]`. -/
def reqP1P2 : CreateOrderRequest :=
  { items := [⟨"P1", 2⟩, ⟨"P2", 1⟩], shippingAddr := "addr-1" }

/-- Environment for the reservation-failure scenario: `Reserve(P1,2)` yields
token `T1`, `Reserve(P2,1)` fails with resource-exhausted (insufficient
stock). -/
def envC1 : SagaEnv :=
  { reserveRes := fun i =>
      if i.productID == "P1" then .ok "T1"
      else .error (.statusErr .resourceExhausted "insufficient stock")
    cancelRes := fun _ => none
    orderCreateRes := fun _ => none }

/-- Environment for the order-create-failure scenario: both reservations
succeed (`T1`, `T2`), the order-create call fails with an internal error. -/
def envC4 : SagaEnv :=
  { reserveRes := fun i => .ok ("T-" ++ i.productID)
    cancelRes := fun _ => none
    orderCreateRes := fun _ => some (.statusErr .internal "order service down") }

/-- Environment for the fully successful scenario: both reservations succeed
and the order-create call succeeds. -/
def envC6 : SagaEnv :=
  { reserveRes := fun i => .ok ("T-" ++ i.productID)
    cancelRes := fun _ => none
    orderCreateRes := fun _ => none }

/-- Environment whose remote outcomes are the repository's own stub facades:
reservations behave as `ReserveInventory` (always succeeding with the
deterministic token `"reservation-" ++ productID`), cancellations as
`CancelReservation`, and the order-create call always succeeds. -/
def envRepo : SagaEnv :=
  { reserveRes := fun i => .ok (ReserveInventory i.productID i.quantity).1
    cancelRes := fun t => CancelReservation t
    orderCreateRes := fun _ => none }

/-- A second concrete draft holding only product `P1`. -/
def reqOnlyP1 : CreateOrderRequest :=
  { items := [⟨"P1", 2⟩], shippingAddr := "addr-2" }

theorem collectPhase_ok (env : SagaEnv) (items : List OrderItemReq)
    (h : ∀ i ∈ items, (env.reserveRes i).isOk) :
    collectPhase env items =
      (items.map reserveCall, items.map (resToken env), none) := by
  induction items with
  | nil => rfl
  | cons item rest ih =>
    have hitem := h item (List.mem_cons_self item rest)
    have hrest : ∀ i ∈ rest, (env.reserveRes i).isOk :=
      fun i hi => h i (List.mem_cons_of_mem item hi)
    cases hres : env.reserveRes item with
    | ok tok =>
      simp only [collectPhase, hres, ih hrest, List.map_cons]
      simp [resToken, hres]
    | error e => simp [hres, Except.isOk, Except.toBool] at hitem

theorem collectPhase_fail (env : SagaEnv) (pre : List OrderItemReq)
    (bad : OrderItemReq) (rest : List OrderItemReq) (e : GoErr)
    (hpre : ∀ i ∈ pre, (env.reserveRes i).isOk)
    (hbad : env.reserveRes bad = .error e) :
    collectPhase env (pre ++ bad :: rest) =
      (pre.map reserveCall ++ [reserveCall bad], pre.map (resToken env), some e) := by
  induction pre with
  | nil => simp [collectPhase, hbad]
  | cons item pre ih =>
    have hitem := hpre item (List.mem_cons_self item pre)
    have hpre2 : ∀ i ∈ pre, (env.reserveRes i).isOk :=
      fun i hi => hpre i (List.mem_cons_of_mem item hi)
    cases hres : env.reserveRes item with
    | ok tok =>
      simp only [List.cons_append, collectPhase, hres, List.append_eq]
      rw [ih hpre2]
      simp [resToken, hres]
    | error e2 => simp [hres, Except.isOk, Except.toBool] at hitem

/-- C2 counterexample: the claim says a resource-exhausted (or
invalid-argument, insufficient stock) failure translates to a distinct domain
error `Conflict`; in the code both translate to the same catch-all
`ErrInternal` that a generic transport-unreachable failure also receives, and
the declared taxonomy (`ErrNotFound`, `ErrUnauthorized`, `ErrInternal`) has no
Conflict member at all. -/
theorem translator_no_conflict_counterexample :
    handleGRPCError (some (.statusErr .resourceExhausted "insufficient stock"))
        = some ErrInternal ∧
    handleGRPCError (some (.statusErr .invalidArgument "insufficient stock"))
        = some ErrInternal ∧
    handleGRPCError (some (.statusErr .unavailable "connection refused"))
        = some ErrInternal ∧
    ErrInternal ≠ ErrNotFound ∧ ErrInternal ≠ ErrUnauthorized :=
  ⟨rfl, rfl, rfl, by decide, by decide⟩

/-- C2 (amended): the error translator maps a resource-exhausted failure, and
an invalid-argument failure signaling insufficient stock, to the domain error
`Internal` — the code's taxonomy declares no Conflict error. -/
theorem translator_resource_exhausted_internal (m : String) :
    handleGRPCError (some (.statusErr .resourceExhausted m)) = some ErrInternal ∧
    handleGRPCError (some (.statusErr .invalidArgument m)) = some ErrInternal :=
  ⟨rfl, rfl⟩

/-- C3 counterexample: the claim says a non-nil failure that is not a
recognized status object translates to `Internal`; in the code
`handleGRPCError` returns the raw error unchanged when `status.FromError`
reports failure, so the caller observes the transport-specific value. -/
theorem translator_raw_passthrough_counterexample :
    handleGRPCError (some (.otherErr "connection reset by peer"))
        = some (.otherErr "connection reset by peer") ∧
    (GoErr.otherErr "connection reset by peer") ≠ ErrInternal :=
  ⟨rfl, by decide⟩

/-- C3 (amended): for every non-nil failure value that is not a recognized
status object, the error translator returns the raw error value unchanged
(it does not map it to `Internal`). -/
theorem translator_unrecognized_passthrough (e : GoErr)
    (h : statusFromError e = none) :
    handleGRPCError (some e) = some e := by
  simp [handleGRPCError, translateGoErr, h]

/-- Witness for `translator_unrecognized_passthrough` at a concrete
non-status error. -/
theorem translator_unrecognized_passthrough_witness :
    statusFromError (.otherErr "boom") = none ∧
    handleGRPCError (some (.otherErr "boom")) = some (.otherErr "boom") :=
  ⟨rfl, translator_unrecognized_passthrough (.otherErr "boom") rfl⟩

/-- C7: the error translator maps a nil failure to no error, a not-found
status to `ErrNotFound`, and permission-denied or unauthenticated statuses to
`ErrUnauthorized`, whatever the status message. -/
theorem translator_nil_notfound_unauthorized :
    handleGRPCError none = none ∧
    ∀ m : String,
      handleGRPCError (some (.statusErr .notFound m)) = some ErrNotFound ∧
      handleGRPCError (some (.statusErr .permissionDenied m)) = some ErrUnauthorized ∧
      handleGRPCError (some (.statusErr .unauthenticated m)) = some ErrUnauthorized :=
  ⟨rfl, fun _ => ⟨rfl, rfl, rfl⟩⟩

/-- C5: the health report maps each configured service to the health of its
channel, and a channel reads healthy exactly when it is present and its state
label is `READY` or `IDLE`; every other case — any other label (CONNECTING,
TRANSIENT_FAILURE, SHUTDOWN, or unrecognized) or an absent channel — reads
false. -/
theorem HealthCheck_ready_or_idle (c : Clients) :
    c.HealthCheck =
      [("user-service", isHealthy c.userConn),
       ("listing-service", isHealthy c.listingConn),
       ("inventory-service", isHealthy c.inventoryConn)] ∧
    ∀ o : Option ClientConn,
      isHealthy o = true ↔
        ∃ ch, o = some ch ∧ (ch.state = "READY" ∨ ch.state = "IDLE") := by
  refine ⟨rfl, fun o => ?_⟩
  cases o with
  | none => simp [isHealthy]
  | some ch => simp [isHealthy]

/-- Witness for `HealthCheck_ready_or_idle`: an IDLE channel, a
TRANSIENT_FAILURE channel and an absent channel, at concrete states. -/
theorem HealthCheck_ready_or_idle_witness :
    isHealthy (some ⟨"IDLE", false⟩) = true ∧
    isHealthy (some ⟨"TRANSIENT_FAILURE", false⟩) = false ∧
    isHealthy none = false := by
  have h := HealthCheck_ready_or_idle ⟨some ⟨"IDLE", false⟩, none, none⟩
  refine ⟨(h.2 (some ⟨"IDLE", false⟩)).mpr ⟨⟨"IDLE", false⟩, rfl, Or.inr rfl⟩, ?_, ?_⟩
  · by_contra hx
    simp only [Bool.not_eq_false] at hx
    obtain ⟨ch, hch, hst⟩ := (h.2 (some ⟨"TRANSIENT_FAILURE", false⟩)).mp hx
    cases hch
    rcases hst with hst | hst <;> simp at hst
  · by_contra hx
    simp only [Bool.not_eq_false] at hx
    obtain ⟨ch, hch, _⟩ := (h.2 none).mp hx
    cases hch

/-- C8: `Close` is idempotent (a second call leaves the clients unchanged and
does not fail), marks every held channel closed, and is safe when some or all
channel handles are absent. -/
theorem Close_idempotent_safe (c : Clients) :
    c.Close.Close = c.Close ∧
    c.Close.userConn.all (fun ch => ch.closed) = true ∧
    c.Close.listingConn.all (fun ch => ch.closed) = true ∧
    c.Close.inventoryConn.all (fun ch => ch.closed) = true ∧
    (Clients.Close ⟨none, none, none⟩ : Clients) = ⟨none, none, none⟩ := by
  obtain ⟨u, l, i⟩ := c
  refine ⟨?_, ?_, ?_, ?_, rfl⟩ <;>
    cases u <;> cases l <;> cases i <;>
      simp [Clients.Close, connClose, Option.all]

/-- Witness for `Close_idempotent_safe` at a concrete partially-started
client set (one live channel, two absent). -/
theorem Close_idempotent_safe_witness :
    (Clients.Close (Clients.Close ⟨some ⟨"READY", false⟩, none, none⟩))
        = Clients.Close ⟨some ⟨"READY", false⟩, none, none⟩ ∧
    (Clients.Close ⟨some ⟨"READY", false⟩, none, none⟩).userConn.all
        (fun ch => ch.closed) = true :=
  ⟨(Close_idempotent_safe ⟨some ⟨"READY", false⟩, none, none⟩).1,
   (Close_idempotent_safe ⟨some ⟨"READY", false⟩, none, none⟩).2.1⟩

/-- C9: `GetProduct` returns `ErrNotFound` exactly for the id `"not-found"`
(with no product); for every other id it returns a product carrying that id
and no error. -/
theorem GetProduct_notfound_iff (id : String) :
    ((GetProduct id).2 = some ErrNotFound ↔ id = "not-found") ∧
    (id = "not-found" → (GetProduct id).1 = none) ∧
    (id ≠ "not-found" →
      ∃ p, (GetProduct id).1 = some p ∧ p.id = id ∧ (GetProduct id).2 = none) := by
  by_cases h : id = "not-found"
  · subst h
    refine ⟨by simp [GetProduct], fun _ => by simp [GetProduct], fun hx => absurd rfl hx⟩
  · refine ⟨?_, fun hx => absurd hx h, fun _ => ?_⟩
    · simp [GetProduct, h, ErrNotFound]
    · refine ⟨{ id := id,
                name := "Sample Product",
                description := "A sample product for testing",
                category := "electronics",
                available := true }, ?_, rfl, ?_⟩ <;>
        simp [GetProduct, h]

/-- Witness for `GetProduct_notfound_iff` at the ids `"not-found"` and
`"prod-42"`. -/
theorem GetProduct_notfound_iff_witness :
    (GetProduct "not-found").2 = some ErrNotFound ∧
    (GetProduct "not-found").1 = none ∧
    ∃ p, (GetProduct "prod-42").1 = some p ∧ p.id = "prod-42" ∧
      (GetProduct "prod-42").2 = none :=
  ⟨(GetProduct_notfound_iff "not-found").1.mpr rfl,
   (GetProduct_notfound_iff "not-found").2.1 rfl,
   (GetProduct_notfound_iff "prod-42").2.2 (by decide)⟩

/-- C10: `ReserveInventory` always succeeds, returning the token
`"reservation-" ++ productID` and no error, for every product id and every
quantity; in particular the result does not depend on the quantity. -/
theorem ReserveInventory_total_deterministic (productID : String) (quantity : Int) :
    ReserveInventory productID quantity = ("reservation-" ++ productID, none) ∧
    ∀ q2 : Int, ReserveInventory productID quantity = ReserveInventory productID q2 :=
  ⟨rfl, fun _ => rfl⟩

theorem saga_ok_reservationIDs (env : SagaEnv) (userID : String)
    (req : CreateOrderRequest) (order : Order)
    (h : (createOrderSaga env userID req).2 = .ok order) :
    order.reservationIDs = (collectPhase env req.items).2.1 := by
  unfold createOrderSaga at h
  rcases hc : collectPhase env req.items with ⟨calls, toks, err⟩
  rw [hc] at h
  cases err with
  | some e =>
    dsimp only at h
    exact Except.noConfusion h
  | none =>
    dsimp only at h
    cases ho : env.orderCreateRes toks with
    | some e =>
      rw [ho] at h
      dsimp only at h
      exact Except.noConfusion h
    | none =>
      rw [ho] at h
      dsimp only at h
      injection h with h2
      rw [← h2]
      rfl

/-- C1: if the reservation for one line item fails after a prefix of
successful reservations, the coordinator issues exactly one cancellation per
acquired token (in acquisition order), attempts no reservation beyond the
failing item, never issues the order-create call, and returns the failing
item's error translated by the error translator. -/
theorem saga_reservation_failure (env : SagaEnv) (userID : String)
    (req : CreateOrderRequest) (pre : List OrderItemReq) (bad : OrderItemReq)
    (rest : List OrderItemReq) (e : GoErr)
    (hsplit : req.items = pre ++ bad :: rest)
    (hpre : ∀ i ∈ pre, (env.reserveRes i).isOk)
    (hbad : env.reserveRes bad = .error e) :
    createOrderSaga env userID req =
      (pre.map reserveCall ++ [reserveCall bad] ++
        (pre.map (resToken env)).map Call.cancel,
       .error (translateGoErr e)) ∧
    (createOrderSaga env userID req).1.filter Call.isCancel
      = (pre.map (resToken env)).map Call.cancel ∧
    (createOrderSaga env userID req).1.filter Call.isReserve
      = pre.map reserveCall ++ [reserveCall bad] ∧
    (createOrderSaga env userID req).1.filter Call.isOrderCreate = [] := by
  have hmain : createOrderSaga env userID req =
      (pre.map reserveCall ++ [reserveCall bad] ++
        (pre.map (resToken env)).map Call.cancel,
       .error (translateGoErr e)) := by
    unfold createOrderSaga
    rw [hsplit, collectPhase_fail env pre bad rest e hpre hbad]
    simp [compensate]
  refine ⟨hmain, ?_, ?_, ?_⟩ <;> rw [hmain] <;>
    simp [List.filter_append, List.filter_map, Function.comp_def,
      Call.isCancel, Call.isReserve, Call.isOrderCreate, reserveCall]

/-- Witness for `saga_reservation_failure`: the spec scenario — draft
`[(P1, 2), (P2, 1)]`, `Reserve(P1,2)` yields `T1`, `Reserve(P2,1)` fails with
insufficient stock; `Cancel(T1)` is called once, no order-create call is
made, and the translated failure is returned. -/
theorem saga_reservation_failure_witness :
    createOrderSaga envC1 "user-1" reqP1P2 =
      ([Call.reserve "P1" 2, Call.reserve "P2" 1, Call.cancel "T1"],
       .error ErrInternal) := by
  have h := (saga_reservation_failure envC1 "user-1" reqP1P2 [⟨"P1", 2⟩]
      ⟨"P2", 1⟩ [] (.statusErr .resourceExhausted "insufficient stock")
      rfl (by decide) rfl).1
  rw [h]
  rfl

/-- C4: if every reservation succeeds and the order-create call then fails,
every acquired token receives exactly one cancellation call, in acquisition
order, and the translated order-create failure (not any compensation outcome)
is returned. -/
theorem saga_order_create_failure (env : SagaEnv) (userID : String)
    (req : CreateOrderRequest) (e : GoErr)
    (hok : ∀ i ∈ req.items, (env.reserveRes i).isOk)
    (hfail : env.orderCreateRes (req.items.map (resToken env)) = some e) :
    createOrderSaga env userID req =
      (req.items.map reserveCall ++
        [Call.orderCreate (req.items.map (resToken env))] ++
        (req.items.map (resToken env)).map Call.cancel,
       .error (translateGoErr e)) ∧
    (createOrderSaga env userID req).1.filter Call.isCancel
      = (req.items.map (resToken env)).map Call.cancel ∧
    (createOrderSaga env userID req).2 = .error (translateGoErr e) := by
  have hmain : createOrderSaga env userID req =
      (req.items.map reserveCall ++
        [Call.orderCreate (req.items.map (resToken env))] ++
        (req.items.map (resToken env)).map Call.cancel,
       .error (translateGoErr e)) := by
    unfold createOrderSaga
    rw [collectPhase_ok env req.items hok]
    simp [hfail, compensate]
  refine ⟨hmain, ?_, ?_⟩ <;> rw [hmain] <;>
    simp [List.filter_append, List.filter_map, Function.comp_def,
      Call.isCancel, reserveCall]

/-- Witness for `saga_order_create_failure`: the spec scenario — both
reservations succeed, order-create fails with an internal error; both tokens
are cancelled exactly once, oldest first, and the translated order-create
failure is returned. -/
theorem saga_order_create_failure_witness :
    createOrderSaga envC4 "user-1" reqP1P2 =
      ([Call.reserve "P1" 2, Call.reserve "P2" 1,
        Call.orderCreate ["T-P1", "T-P2"],
        Call.cancel "T-P1", Call.cancel "T-P2"],
       .error ErrInternal) := by
  have h := (saga_order_create_failure envC4 "user-1" reqP1P2
      (.statusErr .internal "order service down") (by decide) rfl).1
  rw [h]
  rfl

/-- C6 counterexample: with the repository's own deterministic
`ReserveInventory` (token `"reservation-" ++ productID`) supplying the
reservation outcomes, two distinct coordinator invocations — one for the
draft `[(P1, 2)]`, one for the draft `[(P1, 2), (P2, 1)]` — both succeed and
both returned orders carry the token `"reservation-P1"`: a token does appear
in two orders, refuting the claim's uniqueness part. -/
theorem saga_token_shared_counterexample :
    (createOrderSaga envRepo "user-1" reqOnlyP1).2
        = .ok (CreateOrder "user-1" reqOnlyP1 ["reservation-P1"]) ∧
    (createOrderSaga envRepo "user-2" reqP1P2).2
        = .ok (CreateOrder "user-2" reqP1P2
            ["reservation-P1", "reservation-P2"]) ∧
    "reservation-P1"
        ∈ (CreateOrder "user-1" reqOnlyP1 ["reservation-P1"]).reservationIDs ∧
    "reservation-P1"
        ∈ (CreateOrder "user-2" reqP1P2
            ["reservation-P1", "reservation-P2"]).reservationIDs ∧
    CreateOrder "user-1" reqOnlyP1 ["reservation-P1"]
        ≠ CreateOrder "user-2" reqP1P2 ["reservation-P1", "reservation-P2"] :=
  ⟨rfl, rfl, by decide, by decide, by decide⟩

/-- C6 (amended): if every reservation succeeds and the order-create call
succeeds, the returned order carries exactly the tokens acquired during that
coordinator invocation, in acquisition order; in general any successfully
returned order's token list is exactly its own invocation's acquired ledger.
(Token values need not differ across invocations: the stub
`ReserveInventory` derives them deterministically from the product id, so
two orders reserving the same product share a token value.) -/
theorem saga_success_tokens (env : SagaEnv) (userID : String)
    (req : CreateOrderRequest)
    (hok : ∀ i ∈ req.items, (env.reserveRes i).isOk)
    (hoc : env.orderCreateRes (req.items.map (resToken env)) = none) :
    createOrderSaga env userID req =
      (req.items.map reserveCall ++
        [Call.orderCreate (req.items.map (resToken env))],
       .ok (CreateOrder userID req (req.items.map (resToken env)))) ∧
    (CreateOrder userID req (req.items.map (resToken env))).reservationIDs
      = req.items.map (resToken env) ∧
    ∀ (env2 : SagaEnv) (userID2 : String) (req2 : CreateOrderRequest)
      (order2 : Order),
      (createOrderSaga env2 userID2 req2).2 = .ok order2 →
      order2.reservationIDs = (collectPhase env2 req2.items).2.1 := by
  refine ⟨?_, rfl, ?_⟩
  · unfold createOrderSaga
    rw [collectPhase_ok env req.items hok]
    simp [hoc]
  · intro env2 userID2 req2 order2 h2
    exact saga_ok_reservationIDs env2 userID2 req2 order2 h2

/-- Witness for `saga_success_tokens`: both reservations succeed and
order-create succeeds; the committed order carries exactly the acquired
tokens in acquisition order. -/
theorem saga_success_tokens_witness :
    createOrderSaga envC6 "user-1" reqP1P2 =
      ([Call.reserve "P1" 2, Call.reserve "P2" 1,
        Call.orderCreate ["T-P1", "T-P2"]],
       .ok (CreateOrder "user-1" reqP1P2 ["T-P1", "T-P2"])) := by
  have h := (saga_success_tokens envC6 "user-1" reqP1P2 (by decide) rfl).1
  rw [h]
  rfl

end Gateway
